import Mathlib

/-- An HTTP response as produced by the handlers: a status code and a plain-text body. -/
structure HttpResponse where
  status : Nat
  body : String
deriving Repr, DecidableEq

/-- Request payload for the chat API endpoint (src/models/chat.rs, `ChatRequest`). -/
structure ChatRequest where
  prompt : String
deriving Repr, DecidableEq

/-- A Telegram chat (src/models/telegram.rs, `TelegramChat`). -/
structure TelegramChat where
  id : Int
deriving Repr, DecidableEq

/-- A message from Telegram (src/models/telegram.rs, `TelegramMessage`). -/
structure TelegramMessage where
  message_id : Int
  chat : TelegramChat
  text : Option String
deriving Repr, DecidableEq

/-- An incoming update from Telegram (src/models/telegram.rs, `TelegramUpdate`).
The `update_id` field is a plain integer, not an optional one. -/
structure TelegramUpdate where
  update_id : Int
  message : Option TelegramMessage
deriving Repr, DecidableEq

/-- Rust's `str::trim`: the string with leading and trailing whitespace removed,
modelled on the character sequence (ASCII whitespace; no claim depends on
exotic Unicode whitespace). -/
def rustTrim (s : String) : String :=
  ⟨((s.data.dropWhile Char.isWhitespace).reverse.dropWhile Char.isWhitespace).reverse⟩

/-- The `/chat` handler (src/handlers/chat.rs, `chat_endpoint`).
The outbound chat API is passed as a function from the prompt to the outcome of
`call_chat_api`; the second component of the result records the list of prompts
actually sent to the chat API, so that "the ChatApi is never invoked" is the
statement that this list is empty. -/
def chat_endpoint (payload : ChatRequest) (chat_api : String → Except String String) :
    HttpResponse × List String :=
  if (rustTrim payload.prompt).isEmpty then
    (⟨400, "Prompt cannot be empty"⟩, [])
  else
    match chat_api payload.prompt with
    | .ok response_text => (⟨200, response_text⟩, [payload.prompt])
    | .error _ => (⟨500, "Error calling chat API"⟩, [payload.prompt])

/-- The `/telegram/webhook` handler (src/handlers/telegram.rs, `telegram_webhook`).
The chat API and the Telegram API are passed as functions giving the outcomes of
`call_chat_api` and `send_telegram_message`. The result's second component is the
list of prompts sent to the chat API and its third component is the list of
`(chat_id, text)` pairs sent to the Telegram API, so that "the X client is never
invoked" is the statement that the corresponding list is empty. -/
def telegram_webhook (update : TelegramUpdate)
    (chat_api : String → Except String String)
    (telegram_api : Int → String → Except String Unit) :
    HttpResponse × List String × List (Int × String) :=
  match update.message.bind (fun m => m.text.map (fun t => (m.chat.id, t))) with
  | some (chat_id, text) =>
    if (rustTrim text).isEmpty then
      (⟨400, "No Message Text"⟩, [], [])
    else
      match chat_api text with
      | .error _ => (⟨500, "Error calling chat API"⟩, [text], [])
      | .ok response_text =>
        match telegram_api chat_id response_text with
        | .ok _ => (⟨200, "Message sent"⟩, [text], [(chat_id, response_text)])
        | .error _ =>
          (⟨500, "Failed to send message to Telegram"⟩, [text], [(chat_id, response_text)])
  | none => (⟨400, "No Message Text"⟩, [], [])

/-- A process environment: a partial map from variable names to values,
as consulted by `std::env::var`. -/
def Env : Type := String → Option String

/-- The bearer-token gate (src/middleware/auth.rs, `validator`).
Mirrors the source exactly: a missing credential is rejected with 400
"No Bearer Header"; otherwise the expected token is read from the `API_TOKEN`
environment variable at validation time, defaulting to the empty string
(`unwrap_or_default`), and a mismatching token is rejected with 400
"Authentication Error". -/
def validator (env : Env) (credentials : Option String) : Except HttpResponse Unit :=
  match credentials with
  | none => .error ⟨400, "No Bearer Header"⟩
  | some token =>
    let expected_token : String := (env "API_TOKEN").getD ""
    if token = expected_token then .ok () else .error ⟨400, "Authentication Error"⟩

/-- The `/chat` route as wired in src/routes/chat.rs: the `validator` middleware
runs first, and only a request it accepts reaches `chat_endpoint`. On rejection
the chat API is not consulted (empty call list). -/
def gated_chat_endpoint (env : Env) (credentials : Option String)
    (payload : ChatRequest) (chat_api : String → Except String String) :
    HttpResponse × List String :=
  match validator env credentials with
  | .error resp => (resp, [])
  | .ok _ => chat_endpoint payload chat_api

/-- Reading a required, non-empty environment variable, as done in
`RealChatApi::new_from_env` and `RealTelegramApi::new_from_env`: a missing
variable errors with "... is not set or empty", a whitespace-only value with
"... cannot be empty". -/
def env_var_required (env : Env) (name : String) : Except String String :=
  match env name with
  | none => .error ("Environment variable " ++ name ++ " is not set or empty")
  | some v =>
    if (rustTrim v).isEmpty then
      .error ("Environment variable " ++ name ++ " cannot be empty")
    else
      .ok v

/-- Configuration of the completion client (src/services/chat_api_impl.rs,
`RealChatApi`): base URL, model name, optional API key. -/
structure RealChatApi where
  base_url : String
  model : String
  api_key : Option String
deriving Repr, DecidableEq

/-- `RealChatApi::new_from_env` (src/services/chat_api_impl.rs): `OPEN_AI_URL`
and `OPEN_AI_MODEL` are required and non-empty; `OPEN_AI_API_KEY` is optional. -/
def RealChatApi.new_from_env (env : Env) : Except String RealChatApi := do
  let base_url ← env_var_required env "OPEN_AI_URL"
  let model ← env_var_required env "OPEN_AI_MODEL"
  .ok ⟨base_url, model, env "OPEN_AI_API_KEY"⟩

/-- Configuration of the delivery client (src/services/telegram_api_impl.rs,
`RealTelegramApi`): base URL and bot token. -/
structure RealTelegramApi where
  base_url : String
  token : String
deriving Repr, DecidableEq

/-- `RealTelegramApi::new_from_env` (src/services/telegram_api_impl.rs):
`TELEGRAM_API_BASE_URL` and `TELEGRAM_BOT_TOKEN` are required and non-empty. -/
def RealTelegramApi.new_from_env (env : Env) : Except String RealTelegramApi := do
  let base_url ← env_var_required env "TELEGRAM_API_BASE_URL"
  let token ← env_var_required env "TELEGRAM_BOT_TOKEN"
  .ok ⟨base_url, token⟩

/-- Startup wiring (src/routes/chat.rs `init_chat_routes` and
src/routes/telegram.rs `init_telegram_routes`): both clients are built from the
environment with `.expect(...)`, so startup succeeds exactly when both
constructors succeed. -/
def init_routes_ok (env : Env) : Bool :=
  (RealChatApi.new_from_env env).toOption.isSome &&
    (RealTelegramApi.new_from_env env).toOption.isSome

/-- A JSON value, as used for outbound request bodies and provider responses
(serde_json's `Value`). -/
inductive Json where
  | null : Json
  | jbool : Bool → Json
  | num : Int → Json
  | str : String → Json
  | arr : List Json → Json
  | obj : List (String × Json) → Json
deriving Inhabited

/-- First value bound to a key in an association list (serde_json object lookup). -/
def assocLookup {α : Type} (l : List (String × α)) (key : String) : Option α :=
  match l with
  | [] => none
  | (k, v) :: rest => if k = key then some v else assocLookup rest key

/-- serde_json `Value` indexing by key: on an object, the value at the key;
`Null` on a missing key or a non-object. -/
def Json.get (j : Json) (key : String) : Json :=
  match j with
  | .obj fields => (assocLookup fields key).getD .null
  | _ => .null

/-- serde_json `Value` indexing by position: on an array, the element at the
index; `Null` out of bounds or on a non-array. -/
def Json.idx (j : Json) (i : Nat) : Json :=
  match j with
  | .arr elems => elems.getD i .null
  | _ => .null

/-- serde_json `Value::as_str`. -/
def Json.asStr (j : Json) : Option String :=
  match j with
  | .str s => some s
  | _ => none

/-- serde_json `Value::as_i64`, restricted to the integer case. -/
def Json.asInt (j : Json) : Option Int :=
  match j with
  | .num n => some n
  | _ => none

/-- An outbound HTTP request as shaped by the completion client: method, URL,
headers in the order they are set, and a JSON body. -/
structure HttpRequest where
  method : String
  url : String
  headers : List (String × String)
  body : Json

/-- Rust's `str::trim_end_matches('/')`: all trailing `/` characters removed. -/
def trimEndSlashes (s : String) : String :=
  ⟨(s.data.reverse.dropWhile (fun c => c = '/')).reverse⟩

/-- The request built by `RealChatApi::call_chat_api`
(src/services/chat_api_impl.rs, lines 104-125): a POST to
`{base_url minus trailing slashes}/v1/chat/completions` with a
`Content-Type: application/json` header, an `Authorization: Bearer {key}`
header exactly when an API key is configured, and a JSON body holding the
configured model and a single user-role message whose content is the prompt. -/
def call_chat_api_request (api : RealChatApi) (prompt : String) : HttpRequest :=
  { method := "POST"
    url := trimEndSlashes api.base_url ++ "/v1/chat/completions"
    headers :=
      ("Content-Type", "application/json") ::
        (match api.api_key with
         | some key => [("Authorization", "Bearer " ++ key)]
         | none => [])
    body := .obj [("model", .str api.model),
                  ("messages", .arr [.obj [("role", .str "user"),
                                           ("content", .str prompt)]])] }

/-- The response handling of `RealChatApi::call_chat_api`
(src/services/chat_api_impl.rs, lines 127-135). The HTTP status of the
provider's response is available but never consulted; only the outcome of
parsing the body as JSON (`response.json()`) is. The content is looked up at
`choices[0][message][content]` and must be a string. -/
def call_chat_api_response (_status : Nat) (parsed_body : Except String Json) :
    Except String String :=
  match parsed_body with
  | .error e => .error e
  | .ok json =>
    match ((((json.get "choices").idx 0).get "message").get "content").asStr with
    | some content => .ok content
    | none => .error "Missing content in the response!"

/-- The possible outcomes of the delivery client's HTTP POST, before status
classification: a response with a status code and body, or a transport error. -/
inductive TgHttpOutcome where
  | response (status : Nat) (body : String) : TgHttpOutcome
  | transportError (message : String) : TgHttpOutcome

/-- The result classification of `RealTelegramApi::send_telegram_message`
(src/services/telegram_api_impl.rs, lines 77-99): a transport failure maps to
`HTTP error: ...`; a response with a 2xx status (`StatusCode::is_success`) is
success; any other status is an error carrying the status code and the
response body. -/
def send_telegram_message_result (outcome : TgHttpOutcome) : Except String Unit :=
  match outcome with
  | .transportError e => .error ("HTTP error: " ++ e)
  | .response status body =>
    if 200 ≤ status ∧ status ≤ 299 then
      .ok ()
    else
      .error ("Telegram API error " ++ toString status ++ ": " ++ body)

/-- serde deserialization of a required `i64` struct field: the field must be
present and an integer; a missing field is an error. -/
def decodeIntField (fields : List (String × Json)) (name : String) :
    Except String Int :=
  match assocLookup fields name with
  | none => .error ("missing field `" ++ name ++ "`")
  | some v =>
    match v.asInt with
    | some n => .ok n
    | none => .error ("invalid type: expected i64 for field `" ++ name ++ "`")

/-- serde deserialization of an `Option<String>` struct field: a missing field
or JSON `null` is `none`; a string is `some`. -/
def decodeOptStringField (fields : List (String × Json)) (name : String) :
    Except String (Option String) :=
  match assocLookup fields name with
  | none => .ok none
  | some .null => .ok none
  | some (.str s) => .ok (some s)
  | some _ => .error ("invalid type: expected string for field `" ++ name ++ "`")

/-- serde deserialization of `TelegramChat` (src/models/telegram.rs): an object
with a required integer `id`. -/
def decodeTelegramChat (j : Json) : Except String TelegramChat :=
  match j with
  | .obj fields => do
    let id ← decodeIntField fields "id"
    .ok ⟨id⟩
  | _ => .error "invalid type: expected struct TelegramChat"

/-- serde deserialization of `TelegramMessage` (src/models/telegram.rs): an
object with required integer `message_id`, required `chat`, and optional
string `text`. -/
def decodeTelegramMessage (j : Json) : Except String TelegramMessage :=
  match j with
  | .obj fields => do
    let message_id ← decodeIntField fields "message_id"
    let chat ←
      match assocLookup fields "chat" with
      | none => .error "missing field `chat`"
      | some cj => decodeTelegramChat cj
    let text ← decodeOptStringField fields "text"
    .ok ⟨message_id, chat, text⟩
  | _ => .error "invalid type: expected struct TelegramMessage"

/-- serde deserialization of `TelegramUpdate` (src/models/telegram.rs): an
object with required integer `update_id` (the field is `i64`, not optional and
without a default) and optional `message`. -/
def decodeTelegramUpdate (j : Json) : Except String TelegramUpdate :=
  match j with
  | .obj fields => do
    let update_id ← decodeIntField fields "update_id"
    let message ←
      match assocLookup fields "message" with
      | none => .ok none
      | some .null => .ok none
      | some mj => do
        let m ← decodeTelegramMessage mj
        .ok (some m)
    .ok ⟨update_id, message⟩
  | _ => .error "invalid type: expected struct TelegramUpdate"

/-- The request body of end-to-end scenario C:
`message = (chat = (id = 987654321), text = "Hello bot")`, with no
`update_id` field. -/
def scenarioCBody : Json :=
  .obj [("message", .obj [("chat", .obj [("id", .num 987654321)]),
                          ("text", .str "Hello bot")])]

/-- An environment holding every variable the system reads, including
`API_TOKEN`. -/
def envFull : Env := fun name =>
  if name = "OPEN_AI_URL" then some "http://localhost:8080"
  else if name = "OPEN_AI_MODEL" then some "mistral"
  else if name = "TELEGRAM_API_BASE_URL" then some "https://api.telegram.org"
  else if name = "TELEGRAM_BOT_TOKEN" then some "bot-token"
  else if name = "API_TOKEN" then some "secret"
  else none

/-- `envFull` with the `API_TOKEN` variable absent. -/
def envNoApiToken : Env := fun name =>
  if name = "API_TOKEN" then none else envFull name

/-- Pointwise update of an environment at one variable name. -/
def envUpdate (env : Env) (name : String) (v : Option String) : Env :=
  fun n => if n = name then v else env n

theorem envUpdate_ne (env : Env) (name v n) (h : n ≠ name) :
    envUpdate env name v n = env n := by
  simp [envUpdate, h]

/-- Claim C1: for every prompt whose trim is non-empty, a successful completion
returning content `r` makes the direct-ask `/chat` endpoint respond 200 with
body exactly `r`; on the platform-webhook path, a successful completion
followed by a successful delivery responds 200 with the fixed body
"Message sent". -/
theorem c1_success_paths
    (p r : String) (hp : (rustTrim p).isEmpty = false)
    (chat_api : String → Except String String) (h : chat_api p = .ok r)
    (upd : TelegramUpdate) (m : TelegramMessage)
    (hm : upd.message = some m) (ht : m.text = some p)
    (telegram_api : Int → String → Except String Unit)
    (hd : telegram_api m.chat.id r = .ok ()) :
    (chat_endpoint ⟨p⟩ chat_api).1 = ⟨200, r⟩ ∧
    (telegram_webhook upd chat_api telegram_api).1 = ⟨200, "Message sent"⟩ := by
  constructor
  · simp [chat_endpoint, hp, h]
  · simp [telegram_webhook, hm, ht, hp, h, hd]

/-- Witness for C1 at scenario-A data: prompt "Hello", completion "Hi back!",
and a webhook update for chat 987654321. -/
theorem c1_success_paths_witness :
    (chat_endpoint ⟨"Hello"⟩ (fun _ => .ok "Hi back!")).1 = ⟨200, "Hi back!"⟩ ∧
    (telegram_webhook ⟨10, some ⟨1, ⟨987654321⟩, some "Hello"⟩⟩
        (fun _ => .ok "Hi back!") (fun _ _ => .ok ())).1 = ⟨200, "Message sent"⟩ :=
  c1_success_paths "Hello" "Hi back!" (by decide) (fun _ => .ok "Hi back!") rfl
    ⟨10, some ⟨1, ⟨987654321⟩, some "Hello"⟩⟩ ⟨1, ⟨987654321⟩, some "Hello"⟩ rfl rfl
    (fun _ _ => .ok ()) rfl

/-- Claim C2: if the completion call fails for any cause, both endpoints
respond 500, and on the platform-webhook path the delivery client is never
invoked (its call list is empty). -/
theorem c2_completion_failure
    (p e : String) (hp : (rustTrim p).isEmpty = false)
    (chat_api : String → Except String String) (h : chat_api p = .error e)
    (upd : TelegramUpdate) (m : TelegramMessage)
    (hm : upd.message = some m) (ht : m.text = some p)
    (telegram_api : Int → String → Except String Unit) :
    (chat_endpoint ⟨p⟩ chat_api).1.status = 500 ∧
    (telegram_webhook upd chat_api telegram_api).1.status = 500 ∧
    (telegram_webhook upd chat_api telegram_api).2.2 = [] := by
  refine ⟨?_, ?_, ?_⟩
  · simp [chat_endpoint, hp, h]
  · simp [telegram_webhook, hm, ht, hp, h]
  · simp [telegram_webhook, hm, ht, hp, h]

/-- Witness for C2: a failing completion provider, prompt "Hello". -/
theorem c2_completion_failure_witness :
    (chat_endpoint ⟨"Hello"⟩ (fun _ => .error "API failure")).1.status = 500 ∧
    (telegram_webhook ⟨10, some ⟨1, ⟨7⟩, some "Hello"⟩⟩
        (fun _ => .error "API failure") (fun _ _ => .ok ())).1.status = 500 ∧
    (telegram_webhook ⟨10, some ⟨1, ⟨7⟩, some "Hello"⟩⟩
        (fun _ => .error "API failure") (fun _ _ => .ok ())).2.2 = [] :=
  c2_completion_failure "Hello" "API failure" (by decide)
    (fun _ => .error "API failure") rfl
    ⟨10, some ⟨1, ⟨7⟩, some "Hello"⟩⟩ ⟨1, ⟨7⟩, some "Hello"⟩ rfl rfl
    (fun _ _ => .ok ())

/-- Claim C3: a direct-ask request whose prompt trims to the empty string makes
no outbound call (the chat API call list is empty) and is answered 400 with
body "Prompt cannot be empty". -/
theorem c3_empty_prompt
    (p : String) (hp : (rustTrim p).isEmpty = true)
    (chat_api : String → Except String String) :
    chat_endpoint ⟨p⟩ chat_api = (⟨400, "Prompt cannot be empty"⟩, []) := by
  simp [chat_endpoint, hp]

/-- Witness for C3 at the scenario-B prompt, the empty string. -/
theorem c3_empty_prompt_witness :
    chat_endpoint ⟨""⟩ (fun _ => .ok "Hi back!") =
      (⟨400, "Prompt cannot be empty"⟩, []) :=
  c3_empty_prompt "" (by decide) (fun _ => .ok "Hi back!")

/-- Claim C4: a platform update lacking `message`, or `message.text`, or whose
text trims to the empty string, produces no outbound call and a 400 response
with body "No Message Text"; otherwise the handler proceeds with the message
text as prompt and the message's chat id as destination. -/
theorem c4_webhook_validation
    (upd : TelegramUpdate)
    (chat_api : String → Except String String)
    (telegram_api : Int → String → Except String Unit) :
    ((∀ m, upd.message = some m → ∀ t, m.text = some t →
        (rustTrim t).isEmpty = true) →
      telegram_webhook upd chat_api telegram_api =
        (⟨400, "No Message Text"⟩, [], [])) ∧
    (∀ m t, upd.message = some m → m.text = some t →
      (rustTrim t).isEmpty = false →
      (telegram_webhook upd chat_api telegram_api).2.1 = [t] ∧
      ∀ d ∈ (telegram_webhook upd chat_api telegram_api).2.2,
        d.1 = m.chat.id) := by
  constructor
  · intro hempty
    match humsg : upd.message with
    | none => simp [telegram_webhook, humsg]
    | some m =>
      match htext : m.text with
      | none => simp [telegram_webhook, humsg, htext]
      | some t =>
        have ht := hempty m humsg t htext
        simp [telegram_webhook, humsg, htext, ht]
  · intro m t hm ht hne
    match hc : chat_api t with
    | .error e =>
      constructor
      · simp [telegram_webhook, hm, ht, hne, hc]
      · simp [telegram_webhook, hm, ht, hne, hc]
    | .ok r =>
      match hd : telegram_api m.chat.id r with
      | .ok _ =>
        constructor
        · simp [telegram_webhook, hm, ht, hne, hc, hd]
        · simp [telegram_webhook, hm, ht, hne, hc, hd]
      | .error e =>
        constructor
        · simp [telegram_webhook, hm, ht, hne, hc, hd]
        · simp [telegram_webhook, hm, ht, hne, hc, hd]

/-- Witness for C4: an update whose message has no text is rejected with
"No Message Text" and no calls; an update with text "Hello bot" for chat
987654321 sends exactly that prompt, and every delivery goes to 987654321. -/
theorem c4_webhook_validation_witness :
    (telegram_webhook ⟨10, some ⟨1, ⟨7⟩, none⟩⟩ (fun _ => .ok "r") (fun _ _ => .ok ()) =
      (⟨400, "No Message Text"⟩, [], [])) ∧
    ((telegram_webhook ⟨10, some ⟨1, ⟨987654321⟩, some "Hello bot"⟩⟩
        (fun _ => .ok "Echo: Hello bot") (fun _ _ => .ok ())).2.1 = ["Hello bot"] ∧
      ∀ d ∈ (telegram_webhook ⟨10, some ⟨1, ⟨987654321⟩, some "Hello bot"⟩⟩
          (fun _ => .ok "Echo: Hello bot") (fun _ _ => .ok ())).2.2,
        d.1 = (987654321 : Int)) :=
  ⟨(c4_webhook_validation ⟨10, some ⟨1, ⟨7⟩, none⟩⟩ (fun _ => .ok "r")
      (fun _ _ => .ok ())).1
    (by intro m hm t ht; cases hm; cases ht),
   (c4_webhook_validation ⟨10, some ⟨1, ⟨987654321⟩, some "Hello bot"⟩⟩
      (fun _ => .ok "Echo: Hello bot") (fun _ _ => .ok ())).2
    ⟨1, ⟨987654321⟩, some "Hello bot"⟩ "Hello bot" rfl rfl (by decide)⟩

/-- Claim C5: the credential gate rejects a missing bearer token and rejects a
token different from the expected one, both with the same client-error status
400 and without running any pipeline logic (the chat API call list is empty);
a request whose token equals the expected token proceeds unchanged. -/
theorem c5_credential_gate
    (env : Env) (payload : ChatRequest)
    (chat_api : String → Except String String) (t : String) :
    (gated_chat_endpoint env none payload chat_api =
      (⟨400, "No Bearer Header"⟩, [])) ∧
    (t ≠ (env "API_TOKEN").getD "" →
      gated_chat_endpoint env (some t) payload chat_api =
        (⟨400, "Authentication Error"⟩, [])) ∧
    (t = (env "API_TOKEN").getD "" →
      gated_chat_endpoint env (some t) payload chat_api =
        chat_endpoint payload chat_api) := by
  refine ⟨rfl, ?_, ?_⟩
  · intro hne
    simp [gated_chat_endpoint, validator, hne]
  · intro heq
    simp [gated_chat_endpoint, validator, heq]

/-- Witness for C5 at the environment `envFull` (expected token "secret"):
missing token and wrong token are both 400-rejected without a call; the right
token reaches the handler. -/
theorem c5_credential_gate_witness :
    (gated_chat_endpoint envFull none ⟨"Hello"⟩ (fun _ => .ok "Hi back!") =
      (⟨400, "No Bearer Header"⟩, [])) ∧
    (gated_chat_endpoint envFull (some "wrong") ⟨"Hello"⟩ (fun _ => .ok "Hi back!") =
      (⟨400, "Authentication Error"⟩, [])) ∧
    (gated_chat_endpoint envFull (some "secret") ⟨"Hello"⟩ (fun _ => .ok "Hi back!") =
      chat_endpoint ⟨"Hello"⟩ (fun _ => .ok "Hi back!")) :=
  ⟨(c5_credential_gate envFull ⟨"Hello"⟩ (fun _ => .ok "Hi back!") "wrong").1,
   (c5_credential_gate envFull ⟨"Hello"⟩ (fun _ => .ok "Hi back!") "wrong").2.1
     (by decide),
   (c5_credential_gate envFull ⟨"Hello"⟩ (fun _ => .ok "Hi back!") "secret").2.2
     (by decide)⟩

/-- Claim C6: on the platform-webhook path, when the completion succeeds but
the delivery fails (a non-2xx status, whose error carries the status code and
response body, or a transport error), the response is 500 with the fixed body
"Failed to send message to Telegram": the generated text is not returned to
the caller, and exactly one delivery attempt was made (no retry). -/
theorem c6_delivery_failure
    (upd : TelegramUpdate) (m : TelegramMessage) (p r e : String)
    (hm : upd.message = some m) (ht : m.text = some p)
    (hp : (rustTrim p).isEmpty = false)
    (chat_api : String → Except String String) (hok : chat_api p = .ok r)
    (telegram_api : Int → String → Except String Unit)
    (hfail : telegram_api m.chat.id r = .error e) :
    (∀ st body, ¬(200 ≤ st ∧ st ≤ 299) →
      send_telegram_message_result (.response st body) =
        .error ("Telegram API error " ++ toString st ++ ": " ++ body)) ∧
    (∀ msg, send_telegram_message_result (.transportError msg) =
      .error ("HTTP error: " ++ msg)) ∧
    telegram_webhook upd chat_api telegram_api =
      (⟨500, "Failed to send message to Telegram"⟩, [p], [(m.chat.id, r)]) := by
  refine ⟨?_, fun _ => rfl, ?_⟩
  · intro st body hst
    simp [send_telegram_message_result, hst]
  · simp [telegram_webhook, hm, ht, hp, hok, hfail]

/-- Witness for C6 at scenario-D data: completion "Echo: Hello bot" for chat
987654321, delivery failing as a 400 platform response. -/
theorem c6_delivery_failure_witness :
    send_telegram_message_result (.response 400 "Bad Request") =
      .error "Telegram API error 400: Bad Request" ∧
    telegram_webhook ⟨10, some ⟨1, ⟨987654321⟩, some "Hello bot"⟩⟩
        (fun _ => .ok "Echo: Hello bot")
        (fun _ _ => send_telegram_message_result (.response 400 "Bad Request")) =
      (⟨500, "Failed to send message to Telegram"⟩, ["Hello bot"],
        [(987654321, "Echo: Hello bot")]) := by
  have h := c6_delivery_failure ⟨10, some ⟨1, ⟨987654321⟩, some "Hello bot"⟩⟩
    ⟨1, ⟨987654321⟩, some "Hello bot"⟩ "Hello bot" "Echo: Hello bot"
    "Telegram API error 400: Bad Request" rfl rfl (by decide)
    (fun _ => .ok "Echo: Hello bot") rfl
    (fun _ _ => send_telegram_message_result (.response 400 "Bad Request"))
    rfl
  exact ⟨h.1 400 "Bad Request" (by decide), h.2.2⟩

/-- Claim C7: every completion-client invocation builds a POST to
`{base_url}/v1/chat/completions` with trailing slashes of the base URL
stripped before concatenation (appending a slash to the base URL leaves the
URL unchanged), a `Content-Type: application/json` header, an
`Authorization: Bearer {key}` header exactly when an API key is configured,
and a JSON body carrying the configured model and exactly one user-role
message whose content is the prompt verbatim. -/
theorem c7_request_shape (api : RealChatApi) (prompt : String) :
    (call_chat_api_request api prompt).method = "POST" ∧
    (call_chat_api_request api prompt).url =
      trimEndSlashes api.base_url ++ "/v1/chat/completions" ∧
    (call_chat_api_request ⟨api.base_url ++ "/", api.model, api.api_key⟩ prompt).url =
      (call_chat_api_request api prompt).url ∧
    assocLookup (call_chat_api_request api prompt).headers "Content-Type" =
      some "application/json" ∧
    (match api.api_key with
     | some key =>
       assocLookup (call_chat_api_request api prompt).headers "Authorization" =
         some ("Bearer " ++ key)
     | none =>
       assocLookup (call_chat_api_request api prompt).headers "Authorization" =
         none) ∧
    (call_chat_api_request api prompt).body.get "model" = .str api.model ∧
    (call_chat_api_request api prompt).body.get "messages" =
      .arr [.obj [("role", .str "user"), ("content", .str prompt)]] := by
  refine ⟨rfl, rfl, ?_, ?_, ?_, ?_, ?_⟩
  · have h2 : trimEndSlashes (api.base_url ++ "/") = trimEndSlashes api.base_url := by
      simp [trimEndSlashes, String.data_append]
    simp [call_chat_api_request, h2]
  · simp [call_chat_api_request, assocLookup]
  · match h : api.api_key with
    | some key => simp [call_chat_api_request, assocLookup, h]
    | none => simp [call_chat_api_request, assocLookup, h]
  · simp [call_chat_api_request, Json.get, assocLookup]
  · simp [call_chat_api_request, Json.get, assocLookup]

/-- Claim C10: the completion client never inspects the HTTP status code: its
result depends only on the parsed body, a parsed body holding a string at
`choices[0].message.content` is returned as success whatever the status, and
a parsed body lacking a string there yields the missing-content error
whatever the status. -/
theorem c10_status_ignored (st : Nat) (b : Except String Json) (j : Json)
    (r : String) :
    call_chat_api_response st b = call_chat_api_response 200 b ∧
    (b = .ok j →
      ((((j.get "choices").idx 0).get "message").get "content").asStr = some r →
      call_chat_api_response st b = .ok r) ∧
    (b = .ok j →
      ((((j.get "choices").idx 0).get "message").get "content").asStr = none →
      call_chat_api_response st b = .error "Missing content in the response!") := by
  refine ⟨rfl, ?_, ?_⟩
  · intro hb hc
    subst hb
    simp [call_chat_api_response, hc]
  · intro hb hc
    subst hb
    simp [call_chat_api_response, hc]

/-- Witness for C10: a non-2xx status 404 with a well-formed body still
succeeds with the extracted content, and a 404 with a body lacking the
content path yields the missing-content error. -/
theorem c10_status_ignored_witness :
    call_chat_api_response 404
        (.ok (.obj [("choices",
          .arr [.obj [("message", .obj [("content", .str "Hi back!")])]])])) =
      .ok "Hi back!" ∧
    call_chat_api_response 404 (.ok (.obj [("error", .str "not found")])) =
      .error "Missing content in the response!" :=
  ⟨(c10_status_ignored 404
      (.ok (.obj [("choices",
        .arr [.obj [("message", .obj [("content", .str "Hi back!")])]])]))
      (.obj [("choices",
        .arr [.obj [("message", .obj [("content", .str "Hi back!")])]])])
      "Hi back!").2.1 rfl rfl,
   (c10_status_ignored 404 (.ok (.obj [("error", .str "not found")]))
      (.obj [("error", .str "not found")]) "Hi back!").2.2 rfl rfl⟩

/-- Counterexample to claim C8: with every provider and platform variable set
but `API_TOKEN` absent, startup succeeds (absence of this configuration value
is not startup-fatal), and the credential gate — reading `API_TOKEN` from the
environment at request time — accepts an empty bearer token, while the same
request against an environment carrying `API_TOKEN` is rejected: the expected
token is resolved per request, not once at startup. -/
theorem c8_counterexample :
    init_routes_ok envNoApiToken = true ∧
    validator envNoApiToken (some "") = .ok () ∧
    validator envFull (some "") = .error ⟨400, "Authentication Error"⟩ :=
  ⟨rfl, rfl, rfl⟩

theorem env_var_required_error (env : Env) (name : String)
    (h : env name = none ∨ ∃ s, env name = some s ∧ (rustTrim s).isEmpty = true) :
    ∃ e, env_var_required env name = .error e := by
  rcases h with h | ⟨s, hs, hemp⟩
  · exact ⟨"Environment variable " ++ name ++ " is not set or empty", by
      simp [env_var_required, h]⟩
  · exact ⟨"Environment variable " ++ name ++ " cannot be empty", by
      simp [env_var_required, hs, hemp]⟩

theorem chat_new_from_env_eq (env : Env) :
    RealChatApi.new_from_env env =
      match env_var_required env "OPEN_AI_URL" with
      | .error e => .error e
      | .ok base_url =>
        match env_var_required env "OPEN_AI_MODEL" with
        | .error e => .error e
        | .ok model => .ok ⟨base_url, model, env "OPEN_AI_API_KEY"⟩ := by
  unfold RealChatApi.new_from_env
  cases env_var_required env "OPEN_AI_URL"
  · rfl
  · cases env_var_required env "OPEN_AI_MODEL"
    · rfl
    · rfl

theorem telegram_new_from_env_eq (env : Env) :
    RealTelegramApi.new_from_env env =
      match env_var_required env "TELEGRAM_API_BASE_URL" with
      | .error e => .error e
      | .ok base_url =>
        match env_var_required env "TELEGRAM_BOT_TOKEN" with
        | .error e => .error e
        | .ok token => .ok ⟨base_url, token⟩ := by
  unfold RealTelegramApi.new_from_env
  cases env_var_required env "TELEGRAM_API_BASE_URL"
  · rfl
  · cases env_var_required env "TELEGRAM_BOT_TOKEN"
    · rfl
    · rfl

/-- Claim C8 as amended: the provider and platform configuration values are
resolved by the startup constructors, whose outcome is independent of
`API_TOKEN`, and a required provider or platform variable that is absent or
trims to the empty string is startup-fatal (startup reports failure); the
expected bearer token is instead read from the `API_TOKEN` environment
variable on each request, defaulting to the empty string when the variable is
absent, so its absence is neither startup-fatal nor a per-request error. -/
theorem c8_amended (env : Env) (v : Option String) (token : String) :
    init_routes_ok (envUpdate env "API_TOKEN" v) = init_routes_ok env ∧
    (∀ name, (name = "OPEN_AI_URL" ∨ name = "OPEN_AI_MODEL" ∨
        name = "TELEGRAM_API_BASE_URL" ∨ name = "TELEGRAM_BOT_TOKEN") →
      (env name = none ∨ ∃ s, env name = some s ∧ (rustTrim s).isEmpty = true) →
      init_routes_ok env = false) ∧
    (env "API_TOKEN" = none → validator env (some "") = .ok ()) ∧
    (env "API_TOKEN" = some token → validator env (some token) = .ok ()) := by
  refine ⟨?_, ?_, ?_, ?_⟩
  · unfold init_routes_ok RealChatApi.new_from_env RealTelegramApi.new_from_env
      env_var_required
    rw [envUpdate_ne env "API_TOKEN" v "OPEN_AI_URL" (by decide),
        envUpdate_ne env "API_TOKEN" v "OPEN_AI_MODEL" (by decide),
        envUpdate_ne env "API_TOKEN" v "OPEN_AI_API_KEY" (by decide),
        envUpdate_ne env "API_TOKEN" v "TELEGRAM_API_BASE_URL" (by decide),
        envUpdate_ne env "API_TOKEN" v "TELEGRAM_BOT_TOKEN" (by decide)]
  · intro name hname hbad
    obtain ⟨e, he⟩ := env_var_required_error env name hbad
    rcases hname with h | h | h | h <;> subst h
    · simp [init_routes_ok, chat_new_from_env_eq, he, Except.toOption]
    · cases hurl : env_var_required env "OPEN_AI_URL" <;>
        simp [init_routes_ok, chat_new_from_env_eq, he, hurl, Except.toOption]
    · simp [init_routes_ok, telegram_new_from_env_eq, he, Except.toOption]
    · cases hurl : env_var_required env "TELEGRAM_API_BASE_URL" <;>
        simp [init_routes_ok, telegram_new_from_env_eq, he, hurl, Except.toOption]
  · intro habs
    simp [validator, habs]
  · intro hset
    simp [validator, hset]

/-- Witness for C8 as amended: removing `API_TOKEN` from `envFull` leaves
startup unchanged; removing the required `OPEN_AI_URL`, or blanking the
required `TELEGRAM_BOT_TOKEN`, makes startup fail; the gate accepts the empty
token under `envNoApiToken` and the configured token "secret" under
`envFull`. -/
theorem c8_amended_witness :
    init_routes_ok (envUpdate envFull "API_TOKEN" none) = init_routes_ok envFull ∧
    init_routes_ok (envUpdate envFull "OPEN_AI_URL" none) = false ∧
    init_routes_ok (envUpdate envFull "TELEGRAM_BOT_TOKEN" (some "  ")) = false ∧
    validator envNoApiToken (some "") = .ok () ∧
    validator envFull (some "secret") = .ok () :=
  ⟨(c8_amended envFull none "secret").1,
   (c8_amended (envUpdate envFull "OPEN_AI_URL" none) none "secret").2.1
     "OPEN_AI_URL" (Or.inl rfl) (Or.inl (by decide)),
   (c8_amended (envUpdate envFull "TELEGRAM_BOT_TOKEN" (some "  ")) none "secret").2.1
     "TELEGRAM_BOT_TOKEN" (Or.inr (Or.inr (Or.inr rfl)))
     (Or.inr ⟨"  ", by decide, by decide⟩),
   (c8_amended envNoApiToken none "secret").2.2.1 rfl,
   (c8_amended envFull none "secret").2.2.2 rfl⟩

/-- Claim C9, evaluated on the code: deserializing the scenario-C body, which
has no `update_id` field, fails with a missing-field error, because
`TelegramUpdate.update_id` is a required integer — the body is rejected as
malformed before the handler runs, against the claim (and the repository's
own handler tests, which post bodies without `update_id` and expect handler
semantics). -/
theorem c9_scenario_c_rejected :
    decodeTelegramUpdate scenarioCBody = .error "missing field `update_id`" :=
  rfl
